import Mathlib

/-!
Shallow embedding of the Flask prediction service in `app.py`
(single-record and batch price prediction over a pre-trained model).

Modelling conventions:
* Python/pandas scalar values are modelled by `Cell` (int64, float64,
  strings, NaN); floating-point numbers are modelled by `Rat`.
* A pandas `DataFrame` is modelled column-wise by `Frame`.
* The joblib-loaded preprocessor and model are opaque artifacts; they are
  modelled as environment-provided functions that may fail
  (`Preproc.transform`, `Model.predict`).
* The filesystem at a given moment is an `Env`: each artifact file is
  `Option` (`none` = the file does not exist).
* The module-level globals of `app.py` form an `AppState`; request
  handlers take the state and return it (unchanged) together with the
  response, mirroring the fact that no handler contains a `global`
  statement or mutates a loaded object.
* Python exceptions are modelled by `Except String`, carrying the
  exception message text (the handlers return `str(e)` to the client).
-/

namespace MLApp

instance {ε α : Type} [DecidableEq ε] [DecidableEq α] :
    DecidableEq (Except ε α) := fun a b =>
  match a, b with
  | .ok x, .ok y =>
    if h : x = y then .isTrue (by rw [h]) else .isFalse (by simp [h])
  | .error e, .error e' =>
    if h : e = e' then .isTrue (by rw [h]) else .isFalse (by simp [h])
  | .ok _, .error _ => .isFalse (by simp)
  | .error _, .ok _ => .isFalse (by simp)

/-- A pandas cell value: int64 entries, float64 entries, strings, or NaN.
IEEE special values other than NaN (inf) and numeric underscores are
outside the model; the claims do not involve them. -/
inductive Cell where
  | int (n : Int)
  | float (q : Rat)
  | str (s : String)
  | nan
deriving DecidableEq, Repr

/-- Inferred pandas column dtype. -/
inductive Dtype where
  | int64
  | float64
  | object
deriving DecidableEq, Repr

def Cell.isInt : Cell → Bool
  | .int _ => true
  | _ => false

def Cell.isNumOrNan : Cell → Bool
  | .int _ => true
  | .float _ => true
  | .nan => true
  | .str _ => false

def Cell.isNan : Cell → Bool
  | .nan => true
  | _ => false

/-- pandas `read_csv` dtype inference for one column: all-integer data
gives `int64`, numeric data with possible NaN gives `float64`, anything
else is `object`. -/
def colDtype (cells : List Cell) : Dtype :=
  if cells.all Cell.isInt then .int64
  else if cells.all Cell.isNumOrNan then .float64
  else .object

/-- `pd.api.types.is_numeric_dtype` on the dtypes that occur here. -/
def isNumericDtype (d : Dtype) : Bool :=
  d == .int64 || d == .float64

/-- Association-list lookup (Python dict access / pandas column access). -/
def alookup {β : Type} : List (String × β) → String → Option β
  | [], _ => none
  | p :: r, k' => if p.1 = k' then some p.2 else alookup r k'

/-- Python dict assignment `d[k] = v`: replace in place if the key
exists, otherwise append. -/
def dictInsert {β : Type} (d : List (String × β)) (k : String) (v : β) :
    List (String × β) :=
  if (alookup d k).isSome then
    d.map (fun p => if p.1 = k then (k, v) else p)
  else d ++ [(k, v)]

/-- A pandas DataFrame, stored column-wise: column name with its cells. -/
structure Frame where
  cols : List (String × List Cell)
deriving DecidableEq, Repr

def Frame.header (f : Frame) : List String := f.cols.map Prod.fst

/-- Number of rows: length of the first column (0 for a frame with no
columns). -/
def Frame.nrows (f : Frame) : Nat :=
  match f.cols with
  | [] => 0
  | c :: _ => c.2.length

/-- Rectangularity: every column has the same length. -/
def Frame.Rect (f : Frame) : Prop :=
  ∀ c ∈ f.cols, c.2.length = f.nrows

instance (f : Frame) : Decidable f.Rect := by
  unfold Frame.Rect; infer_instance

/-- `df.drop(columns=[name])`. -/
def Frame.dropCol (f : Frame) (name : String) : Frame :=
  ⟨f.cols.filter (fun c => c.1 ≠ name)⟩

/-- The numeric matrix produced by `preprocessor.transform`; opaque to
this system, a concrete stand-in type. -/
def TMat : Type := List (List Rat)

/-- The fitted preprocessor artifact (opaque): transforms a frame or
fails with a message. -/
structure Preproc where
  transform : Frame → Except String TMat

/-- The trained model artifact (opaque): predicts one value per row of
the transformed matrix, or fails with a message. -/
structure Model where
  predict : TMat → Except String (List Rat)

/-- Feature-schema descriptor `feature_list.json`; absent keys default
to `[]` (the source uses `fl.get(key, [])`). -/
structure FeatureList where
  num_cols : List String
  cat_cols : List String

/-- The filesystem as seen by the process: each configured path either
holds its artifact or does not exist. -/
structure Env where
  preprocFile : Option Preproc
  modelFile : Option Model
  featureListFile : Option FeatureList
  trainCSV : Option Frame

/-- The module-level globals of `app.py`. -/
structure AppState where
  preprocessor : Option Preproc
  model : Option Model
  features : Option (List String)
  num_cols : List String
  cat_cols : List String
  training_uniques : List (String × List String)

/-- Initial values of the globals. -/
def initState : AppState :=
  { preprocessor := none, model := none, features := none,
    num_cols := [], cat_cols := [], training_uniques := [] }

/-! ### Python value coercion semantics -/

/-- `str(value)` on `request.form.get(feature)`: a missing form field is
`None`, and `str(None)` is the string `"None"`. -/
def pyStrOfOpt : Option String → String
  | none => "None"
  | some s => s

/-- Message of the `TypeError` raised by `float(None)`. -/
def floatNoneMsg : String :=
  "float() argument must be a string or a real number, not \x27NoneType\x27"

/-- Message of the `ValueError` raised by `float(s)` on a non-numeric
string. -/
def floatValueMsg (s : String) : String :=
  "could not convert string to float: \x27" ++ s ++ "\x27"

/-- Message of the `ValueError` raised by
`pd.read_csv(..., usecols=[f])` when column `f` is absent. -/
def usecolsMsg (f : String) : String :=
  "Usecols do not match columns, columns expected but not found: [\x27"
    ++ f ++ "\x27]"

/-- Python whitespace stripped by `float`. -/
def isPySpace (c : Char) : Bool :=
  c == ' ' || c == '\t' || c == '\n' || c == '\r' || c == '\x0b' || c == '\x0c'

def trimChars (cs : List Char) : List Char :=
  ((cs.dropWhile isPySpace).reverse.dropWhile isPySpace).reverse

def natOfDigits (ds : List Char) : Nat :=
  ds.foldl (fun a c => a * 10 + (c.toNat - 48)) 0

/-- The rational value of a parsed decimal literal
`[-] ip [. fp] [e [-] exp]`, assembled with integer arithmetic and a
single `Rat.divInt` (numerically identical to
`sign * (ip.fp * 10 ^ (± exp))`). -/
def ratOfParts (neg : Bool) (ip fp : List Char) (eneg : Bool) (e : Nat) :
    Rat :=
  let base : Int := (natOfDigits ip * 10 ^ fp.length + natOfDigits fp : Nat)
  let num : Int := if neg then -base else base
  if eneg then Rat.divInt num (10 ^ (fp.length + e))
  else Rat.divInt (num * 10 ^ e) (10 ^ fp.length)

/-- Grammar accepted by Python `float(str)` (decimal literals with
optional sign, fraction, exponent; surrounding whitespace ignored). -/
def parsePyFloat (s : String) : Option Rat :=
  let cs := trimChars s.toList
  let (neg, cs1) :=
    match cs with
    | '+' :: r => (false, r)
    | '-' :: r => (true, r)
    | _ => (false, cs)
  let (ip, cs2) := cs1.span Char.isDigit
  let (fp, cs3) :=
    match cs2 with
    | '.' :: r => r.span Char.isDigit
    | _ => ([], cs2)
  if ip.isEmpty && fp.isEmpty then none
  else
    match cs3 with
    | [] => some (ratOfParts neg ip fp false 0)
    | c :: r =>
      if c == 'e' || c == 'E' then
        let (eneg, r1) :=
          match r with
          | '+' :: r2 => (false, r2)
          | '-' :: r2 => (true, r2)
          | _ => (false, r)
        let (ed, r2) := r1.span Char.isDigit
        if ed.isEmpty || !r2.isEmpty then none
        else some (ratOfParts neg ip fp eneg (natOfDigits ed))
      else none

/-- `float(value)` where `value` came from `request.form.get` (so it is
`None` or a string). -/
def pyFloat : Option String → Except String Rat
  | none => .error floatNoneMsg
  | some s =>
    match parsePyFloat s with
    | some q => .ok q
    | none => .error (floatValueMsg s)

/-- `int(x)` on a float: truncation toward zero (the denominator of a
`Rat` is positive, so `Int.tdiv` of numerator by denominator is exactly
that). -/
def pyTrunc (q : Rat) : Int := q.num.tdiv q.den

/-- Round to the nearest integer, ties to even (the rounding mode of
Python `round`); stated via `2*q` against `2*floor q + 1` so that it
evaluates by kernel reduction. -/
def roundHalfEven (q : Rat) : Int :=
  let f := Int.floor q
  let twoQ := Rat.divInt (2 * q.num) q.den
  let mid := Rat.divInt (2 * f + 1) 1
  if twoQ < mid then f
  else if mid < twoQ then f + 1
  else if f % 2 = 0 then f else f + 1

/-- `round(x, 2)`: `roundHalfEven (x * 100) / 100`, written with
`Rat.divInt` on the numerator/denominator form. -/
def pyRound2 (q : Rat) : Rat :=
  Rat.divInt (roundHalfEven (Rat.divInt (q.num * 100) q.den)) 100

/-! ### Artifact loading (`load_artifacts`, startup block) -/

def preprocNotFoundMsg : String := "Preprocessor not found"

def modelNotFoundMsg : String := "Model not found"

/-- `load_artifacts()`: checks both artifact paths exist (raising
`FileNotFoundError` before any global is assigned), loads them, then
loads the feature schema from `feature_list.json` or infers it from
`train.csv` (columns other than `Price_INR`; numeric columns are those
of dtype int64/float64). Returns the new globals, or the unchanged
globals with the exception message. -/
def load_artifacts (env : Env) (st : AppState) : AppState × Option String :=
  if env.preprocFile.isNone then (st, some preprocNotFoundMsg)
  else if env.modelFile.isNone then (st, some modelNotFoundMsg)
  else
    let st1 := { st with preprocessor := env.preprocFile,
                         model := env.modelFile }
    match env.featureListFile with
    | some fl =>
      ({ st1 with num_cols := fl.num_cols, cat_cols := fl.cat_cols,
                  features := some (fl.num_cols ++ fl.cat_cols) }, none)
    | none =>
      match env.trainCSV with
      | some t =>
        let feats := t.header.filter (fun c => c ≠ "Price_INR")
        let nums :=
          ((t.cols.filter (fun c => isNumericDtype (colDtype c.2))).map
            Prod.fst).filter (fun c => decide (c ∈ feats))
        let cats := feats.filter (fun c => decide (c ∉ nums))
        ({ st1 with features := some feats, num_cols := nums,
                    cat_cols := cats }, none)
      | none =>
        ({ st1 with features := some [], num_cols := [], cat_cols := [] },
          none)

/-! ### Dropdown metadata (`load_training_unique_values`) -/

/-- `df[col].dropna()`. -/
def dropna (cells : List Cell) : List Cell :=
  cells.filter (fun c => !c.isNan)

/-- `.unique().tolist()`: distinct values in order of first occurrence. -/
def uniqueList (cells : List Cell) : List Cell :=
  cells.foldl (fun acc c => if c ∈ acc then acc else acc ++ [c]) []

/-- `df[col].value_counts()` looked up at `x` (with default 0): the
number of non-NaN occurrences of `x` in the column. -/
def freqOf (cells : List Cell) (x : Cell) : Nat := (dropna cells).count x

/-- Python `str` of a cell (as it appears in dropdown lists). `str` of
a float always shows a decimal point; integral floats are shown as
`"n.0"`. -/
def cellStr : Cell → String
  | .int n => toString n
  | .float q => if q.den = 1 then toString q.num ++ ".0" else toString q
  | .str s => s
  | .nan => "nan"

/-- The sort key comparison of
`sorted(uniques, key=lambda x: (-freq.get(x, 0), str(x)))`: ascending
lexicographic order on the pair `(-frequency, string form)`, i.e.
descending frequency with ties broken by ascending string. -/
def uniqueKeyLe (cells : List Cell) (a b : Cell) : Bool :=
  decide (freqOf cells b < freqOf cells a ∨
    (freqOf cells a = freqOf cells b ∧ cellStr a ≤ cellStr b))

/-- The sorted dropdown list for one categorical column: distinct
non-NaN values sorted by the frequency key, then stringified. -/
def sortedUniqueStrings (cells : List Cell) : List String :=
  ((uniqueList (dropna cells)).mergeSort (uniqueKeyLe cells)).map cellStr

/-- The `except` branch of the sorting in
`load_training_unique_values`: plain lexicographic sort of the
stringified values. In this model the sort key is total, so the
exception handler is unreachable; the definition records what it would
compute. -/
def fallbackUniqueStrings (cells : List Cell) : List String :=
  ((uniqueList (dropna cells)).map cellStr).mergeSort
    (fun a b => decide (a ≤ b))

/-- The loop of `load_training_unique_values`: walks the columns in
order, skipping the target column and numeric-dtype columns, and
assigns `training_uniques[col]`. -/
def uniquesOf : List (String × List Cell) → List (String × List String) →
    List (String × List String)
  | [], acc => acc
  | (name, cells) :: rest, acc =>
    if name = "Price_INR" then uniquesOf rest acc
    else if isNumericDtype (colDtype cells) then uniquesOf rest acc
    else uniquesOf rest (dictInsert acc name (sortedUniqueStrings cells))

/-- `load_training_unique_values()`: no-op when `train.csv` is absent;
otherwise fills `training_uniques` from the frame. -/
def load_training_unique_values (env : Env) (st : AppState) : AppState :=
  match env.trainCSV with
  | none => st
  | some t =>
    { st with training_uniques := uniquesOf t.cols st.training_uniques }

/-- The module-level startup block: `load_artifacts()` then
`load_training_unique_values()`, with any exception caught and logged.
An exception in `load_artifacts` skips `load_training_unique_values`
entirely. -/
def startup (env : Env) : AppState :=
  match load_artifacts env initState with
  | (st, some _) => st
  | (st, none) => load_training_unique_values env st

/-! ### Numeric defaults (`get_numeric_defaults`, used by `home`) -/

def cellToRat : Cell → Option Rat
  | .int n => some (n : Rat)
  | .float q => some q
  | _ => none

/-- `df[col].median()` (skipping NaN); `none` models the NaN returned
for an empty column. -/
def colMedian (cells : List Cell) : Option Rat :=
  let s := (cells.filterMap cellToRat).mergeSort (fun a b => decide (a ≤ b))
  if s.length = 0 then none
  else if s.length % 2 = 1 then some (s.getD (s.length / 2) 0)
  else some (Rat.divInt
    ((s.getD (s.length / 2 - 1) 0).num * (s.getD (s.length / 2) 0).den +
      (s.getD (s.length / 2) 0).num * (s.getD (s.length / 2 - 1) 0).den)
    ((s.getD (s.length / 2 - 1) 0).den * (s.getD (s.length / 2) 0).den * 2))

/-- `get_numeric_defaults()`: for every numeric feature present in the
training sample, its median and whether its dtype is integral. -/
def get_numeric_defaults (env : Env) (st : AppState) :
    List (String × (Option Rat × Bool)) :=
  match env.trainCSV with
  | none => []
  | some t =>
    st.num_cols.filterMap (fun col =>
      (alookup t.cols col).map (fun cells =>
        (col, (colMedian cells, colDtype cells == .int64))))

/-! ### Single prediction (`predict_single`, `/predict`) -/

def noneIterMsg : String := "\x27NoneType\x27 object is not iterable"

def attrMsg (m : String) : String :=
  "\x27NoneType\x27 object has no attribute \x27" ++ m ++ "\x27"

def indexMsg : String := "index 0 is out of bounds for axis 0 with size 0"

/-- The per-feature coercion of the `/predict` loop: numeric features
are converted with `int(float(value))` or `float(value)` according to
the dtype of the training column re-read at request time
(`pd.read_csv(TRAIN_CSV_PATH, usecols=[feature])`); with no training
file the value is converted with `float(value)`; categorical features
are converted with `str(value)`. -/
def coerce_value (env : Env) (numCols : List String) (feature : String)
    (v : Option String) : Except String Cell :=
  if feature ∈ numCols then
    match env.trainCSV with
    | some t =>
      match alookup t.cols feature with
      | none => .error (usecolsMsg feature)
      | some cells =>
        if colDtype cells = .int64 then
          (pyFloat v).map (fun q => Cell.int (pyTrunc q))
        else (pyFloat v).map Cell.float
    | none => (pyFloat v).map Cell.float
  else .ok (Cell.str (pyStrOfOpt v))

/-- The `for feature in features` loop of `/predict`, building
`input_data`; the first exception aborts the whole request. -/
def build_input_from (env : Env) (numCols : List String)
    (form : List (String × String)) (acc : List (String × Cell)) :
    List String → Except String (List (String × Cell))
  | [] => .ok acc
  | f :: fs =>
    match coerce_value env numCols f (alookup form f) with
    | .error e => .error e
    | .ok c => build_input_from env numCols form (dictInsert acc f c) fs

/-- Assembling `input_data` from the form; iterating over a `None`
feature list raises `TypeError`. -/
def build_input (env : Env) (st : AppState)
    (form : List (String × String)) : Except String (List (String × Cell)) :=
  match st.features with
  | none => .error noneIterMsg
  | some fs => build_input_from env st.num_cols form [] fs

/-- `pd.DataFrame([input_data], columns=features)`: a one-row frame
with the feature columns (`NaN` for a key absent from the dict, which
does not occur on the request path). -/
def singleFrame (fs : List String) (input : List (String × Cell)) : Frame :=
  ⟨fs.map (fun f => (f, [(alookup input f).getD Cell.nan]))⟩

/-- `predict_single(input_data)`: build the one-row frame, transform,
predict, return `float(pred[0])`. Calling a method on an unset (`None`)
global raises `AttributeError`. -/
def predict_single (st : AppState) (input : List (String × Cell)) :
    Except String Rat :=
  let df := singleFrame (st.features.getD (input.map Prod.fst)) input
  match st.preprocessor with
  | none => .error (attrMsg "transform")
  | some pre =>
    match pre.transform df with
    | .error e => .error e
    | .ok xt =>
      match st.model with
      | none => .error (attrMsg "predict")
      | some m =>
        match m.predict xt with
        | .error e => .error e
        | .ok preds =>
          match preds with
          | [] => .error indexMsg
          | p :: _ => .ok p

/-- The JSON body returned by `/predict`. -/
inductive PredictBody where
  | success (prediction : Rat) (input_data : List (String × Cell))
  | failure (error : String)
deriving DecidableEq, Repr

/-- An HTTP response of `/predict`: status code and JSON body. -/
structure PredictResp where
  status : Nat
  body : PredictBody
deriving DecidableEq, Repr

/-- The `/predict` handler: build `input_data`, predict, answer
`200 {success, prediction, input_data}`, with every exception reported
as `400 {success: false, error}`. The handler does not assign any
global, so the state is returned unchanged. -/
def predict (env : Env) (st : AppState) (form : List (String × String)) :
    PredictResp × AppState :=
  (match build_input env st form with
   | .error e => ⟨400, .failure e⟩
   | .ok input =>
     match predict_single st input with
     | .error e => ⟨400, .failure e⟩
     | .ok p => ⟨200, .success (pyRound2 p) input⟩, st)

/-! ### Batch prediction (`predict_batch`, `/batch_predict`) -/

def lengthMismatchMsg : String :=
  "Length of values does not match length of index"

/-- The frame actually fed to the pipeline by `predict_batch`: the
uploaded frame with the target column dropped when present. -/
def batch_input_frame (f : Frame) : Frame :=
  if "Price_INR" ∈ f.header then f.dropCol "Price_INR" else f

/-- `df[name] = preds` on a frame: pandas raises `ValueError` when the
value list does not match the index length; assignment replaces an
existing column or appends a new one. -/
def setCol (f : Frame) (name : String) (vals : List Cell) :
    Except String Frame :=
  if vals.length = f.nrows then
    if name ∈ f.header then
      .ok ⟨f.cols.map (fun c => if c.1 = name then (name, vals) else c)⟩
    else .ok ⟨f.cols ++ [(name, vals)]⟩
  else .error lengthMismatchMsg

/-- `predict_batch(df_input)`: drop `Price_INR` if present, transform,
predict, append the `Predicted_Price_INR` column. -/
def predict_batch (st : AppState) (f : Frame) : Except String Frame :=
  let df := batch_input_frame f
  match st.preprocessor with
  | none => .error (attrMsg "transform")
  | some pre =>
    match pre.transform df with
    | .error e => .error e
    | .ok xt =>
      match st.model with
      | none => .error (attrMsg "predict")
      | some m =>
        match m.predict xt with
        | .error e => .error e
        | .ok preds => setCol df "Predicted_Price_INR" (preds.map Cell.float)

/-- One entry of `request.files`: the client-supplied filename and the
outcome of parsing the uploaded bytes as CSV (`pd.read_csv(file)`). -/
structure FilePart where
  filename : String
  content : Except String Frame
deriving DecidableEq

/-- The body returned by `/batch_predict`: a CSV attachment
(`send_file(..., download_name=...)`) or the JSON error shape. -/
inductive BatchBody where
  | csvAttachment (download_name : String) (frame : Frame)
  | failure (error : String)
deriving DecidableEq, Repr

structure BatchResp where
  status : Nat
  body : BatchBody
deriving DecidableEq, Repr

/-- The `/batch_predict` handler: reject a request with no `file` part
or an empty filename before touching the upload, otherwise parse the
CSV, run `predict_batch` and return the augmented table as
`predictions.csv`; every exception is reported as
`400 {success: false, error}`. No global is assigned. -/
def batch_predict (st : AppState) (files : List (String × FilePart)) :
    BatchResp × AppState :=
  (match alookup files "file" with
   | none => ⟨400, .failure "No file uploaded"⟩
   | some fp =>
     if fp.filename = "" then ⟨400, .failure "No file selected"⟩
     else
       match fp.content with
       | .error e => ⟨400, .failure e⟩
       | .ok df =>
         match predict_batch st df with
         | .error e => ⟨400, .failure e⟩
         | .ok out => ⟨200, .csvAttachment "predictions.csv" out⟩, st)

/-! ### Health check (`/health`) and home page (`/`) -/

/-- The JSON body of `/health`. -/
structure HealthBody where
  status : String
  model_loaded : Bool
  preprocessor_loaded : Bool
  features_count : Nat
deriving DecidableEq, Repr

/-- The `/health` handler: always a 200 JSON report of the current
globals. `features_count` is `len(features) if features else 0`; both a
`None` and an empty feature list yield 0, which coincides with
`List.length` on the empty list. -/
def health (st : AppState) : (Nat × HealthBody) × AppState :=
  ((200,
    { status := "healthy",
      model_loaded := st.model.isSome,
      preprocessor_loaded := st.preprocessor.isSome,
      features_count :=
        match st.features with
        | none => 0
        | some fs => fs.length }), st)

/-- The template context passed to `render_template` by `home`. -/
structure HomePage where
  features : Option (List String)
  num_cols : List String
  cat_cols : List String
  training_uniques : List (String × List String)
  numeric_defaults : List (String × (Option Rat × Bool))

/-- The `/` handler: renders the form from the globals and the
freshly computed numeric defaults. No global is assigned. -/
def home (env : Env) (st : AppState) : HomePage × AppState :=
  (⟨st.features, st.num_cols, st.cat_cols, st.training_uniques,
    get_numeric_defaults env st⟩, st)

/-! ### Helper lemmas -/

theorem alookup_append_of_none {β : Type} (l r : List (String × β))
    (k : String) (h : alookup l k = none) :
    alookup (l ++ r) k = alookup r k := by
  induction l with
  | nil => rfl
  | cons p l ih =>
    rw [alookup] at h
    by_cases hk : p.1 = k
    · rw [if_pos hk] at h; cases h
    · rw [if_neg hk] at h
      rw [List.cons_append, alookup, if_neg hk]
      exact ih h

theorem alookup_eq_none_of_not_mem {β : Type} (l : List (String × β))
    (k : String) (h : k ∉ l.map Prod.fst) : alookup l k = none := by
  induction l with
  | nil => rfl
  | cons p l ih =>
    have h1 : p.1 ≠ k := fun he => h (by simp [he])
    have h2 : k ∉ l.map Prod.fst := fun hm => h (by simp [hm])
    rw [alookup, if_neg h1]
    exact ih h2

/-- Replacing the value at one key leaves lookups of other keys alone;
the replacement map does not change any key. -/
theorem alookup_map_replace {β : Type} (d : List (String × β))
    (k : String) (v : β) (k' : String) (h : k ≠ k') :
    alookup (d.map (fun p => if p.1 = k then (k, v) else p)) k' =
      alookup d k' := by
  induction d with
  | nil => rfl
  | cons p d ih =>
    rw [List.map_cons, alookup, alookup]
    by_cases hp : p.1 = k
    · rw [if_pos hp]
      show (if k = k' then some v else _) = _
      rw [if_neg h, if_neg (hp ▸ h : ¬p.1 = k'), ih]
    · rw [if_neg hp]
      by_cases hp' : p.1 = k'
      · rw [if_pos hp', if_pos hp']
      · rw [if_neg hp', if_neg hp', ih]

theorem alookup_dictInsert_ne {β : Type} (d : List (String × β))
    (k : String) (v : β) (k' : String) (h : k ≠ k') :
    alookup (dictInsert d k v) k' = alookup d k' := by
  rw [dictInsert]
  by_cases hs : (alookup d k).isSome
  · rw [if_pos hs]
    exact alookup_map_replace d k v k' h
  · rw [if_neg hs]
    induction d with
    | nil => simp [alookup, h]
    | cons p d ih =>
      rw [List.cons_append, alookup, alookup]
      by_cases hp' : p.1 = k'
      · rw [if_pos hp', if_pos hp']
      · rw [if_neg hp', if_neg hp']
        apply ih
        intro hsd
        apply hs
        rw [alookup]
        by_cases hp : p.1 = k
        · rw [if_pos hp]; rfl
        · rw [if_neg hp]; exact hsd

theorem alookup_dictInsert_self {β : Type} (d : List (String × β))
    (k : String) (v : β) : alookup (dictInsert d k v) k = some v := by
  rw [dictInsert]
  by_cases hs : (alookup d k).isSome
  · rw [if_pos hs]
    induction d with
    | nil => simp [alookup] at hs
    | cons p d ih =>
      rw [List.map_cons, alookup]
      by_cases hp : p.1 = k
      · rw [if_pos hp]
        show (if k = k then some v else _) = some v
        rw [if_pos rfl]
      · rw [if_neg hp]
        show (if p.1 = k then some p.2 else _) = some v
        rw [if_neg hp]
        apply ih
        rw [alookup, if_neg hp] at hs
        exact hs
  · rw [if_neg hs]
    rw [alookup_append_of_none d _ k (by
      cases hd : alookup d k
      · rfl
      · rw [hd] at hs; simp at hs)]
    rw [alookup, if_pos rfl]

/-- If some feature in the list fails to coerce, the input-building
loop raises. -/
theorem build_input_from_error_of_mem (env : Env) (numCols : List String)
    (form : List (String × String)) (f : String) :
    ∀ (fs : List String) (acc : List (String × Cell)), f ∈ fs →
    (∃ e, coerce_value env numCols f (alookup form f) = .error e) →
    ∃ e, build_input_from env numCols form acc fs = .error e := by
  intro fs
  induction fs with
  | nil => intro acc h; exact absurd h (List.not_mem_nil f)
  | cons g gs ih =>
    intro acc hmem ⟨e, herr⟩
    cases hc : coerce_value env numCols g (alookup form g) with
    | error e' => exact ⟨e', by simp [build_input_from, hc]⟩
    | ok c =>
      rcases List.mem_cons.mp hmem with rfl | hgs
      · rw [hc] at herr; cases herr
      · simpa [build_input_from, hc] using
          ih (dictInsert acc g c) hgs ⟨e, herr⟩

/-- Any error message the input-building loop raises is an error of one
of the per-feature coercions. -/
theorem build_input_from_error_classify (env : Env) (numCols : List String)
    (form : List (String × String)) (P : String → Prop) :
    ∀ (fs : List String) (acc : List (String × Cell)) (e : String),
    (∀ g ∈ fs, ∀ e', coerce_value env numCols g (alookup form g) = .error e' →
      P e') →
    build_input_from env numCols form acc fs = .error e → P e := by
  intro fs
  induction fs with
  | nil => intro acc e _ hb; simp [build_input_from] at hb
  | cons g gs ih =>
    intro acc e hall hb
    cases hc : coerce_value env numCols g (alookup form g) with
    | error e' =>
      rw [build_input_from, hc] at hb
      cases hb
      exact hall g (List.mem_cons_self g gs) e hc
    | ok c =>
      rw [build_input_from, hc] at hb
      exact ih (dictInsert acc g c) e
        (fun h hh e' he' => hall h (List.mem_cons_of_mem g hh) e' he') hb

/-- When the input-building loop succeeds over duplicate-free features,
every feature's entry in the result is its coercion's output. -/
theorem build_input_from_ok_lookup (env : Env) (numCols : List String)
    (form : List (String × String)) :
    ∀ (fs : List String) (acc res : List (String × Cell)), fs.Nodup →
    (∀ g ∈ fs, alookup acc g = none) →
    build_input_from env numCols form acc fs = .ok res →
    (∀ f ∈ fs, ∃ c, coerce_value env numCols f (alookup form f) = .ok c ∧
      alookup res f = some c) ∧
    (∀ k, (∀ g ∈ fs, g ≠ k) → alookup res k = alookup acc k) := by
  intro fs
  induction fs with
  | nil =>
    intro acc res _ _ hb
    simp only [build_input_from] at hb
    cases hb
    exact ⟨fun f hf => absurd hf (List.not_mem_nil f), fun k _ => rfl⟩
  | cons g gs ih =>
    intro acc res hnd hdisj hb
    cases hc : coerce_value env numCols g (alookup form g) with
    | error e' => rw [build_input_from, hc] at hb; cases hb
    | ok c =>
      rw [build_input_from, hc] at hb
      have hgacc : alookup acc g = none := hdisj g (List.mem_cons_self g gs)
      have hnd' : gs.Nodup := (List.nodup_cons.mp hnd).2
      have hgns : g ∉ gs := (List.nodup_cons.mp hnd).1
      have hdisj' : ∀ h ∈ gs, alookup (dictInsert acc g c) h = none := by
        intro h hh
        rw [alookup_dictInsert_ne _ _ _ _ (fun he => hgns (by rw [he]; exact hh))]
        exact hdisj h (List.mem_cons_of_mem g hh)
      obtain ⟨hA, hB⟩ := ih (dictInsert acc g c) res hnd' hdisj' hb
      constructor
      · intro f hf
        rcases List.mem_cons.mp hf with rfl | hfg
        · refine ⟨c, hc, ?_⟩
          rw [hB f (fun h hh he => hgns (by rw [← he]; exact hh)),
            alookup_dictInsert_self]
        · exact hA f hfg
      · intro k hk
        rw [hB k (fun h hh => hk h (List.mem_cons_of_mem g hh)),
          alookup_dictInsert_ne _ _ _ _ (hk g (List.mem_cons_self g gs))]

/-- A coercion error message is a Python float-conversion failure. -/
def IsCoercionErrMsg (e : String) : Prop :=
  e = floatNoneMsg ∨ ∃ s, e = floatValueMsg s

theorem pyFloat_error_classify (v : Option String) (e : String)
    (h : pyFloat v = .error e) : IsCoercionErrMsg e := by
  cases v with
  | none => cases h; exact .inl rfl
  | some s =>
    rw [pyFloat] at h
    cases hp : parsePyFloat s with
    | some q => rw [hp] at h; cases h
    | none => rw [hp] at h; cases h; exact .inr ⟨s, rfl⟩

/-- A numeric feature with a missing (`None`) form value always fails
to coerce. -/
theorem coerce_value_error_of_none_numeric (env : Env)
    (numCols : List String) (f : String) (hnum : f ∈ numCols) :
    ∃ e, coerce_value env numCols f none = .error e := by
  rw [coerce_value, if_pos hnum]
  cases henv : env.trainCSV with
  | none => exact ⟨floatNoneMsg, rfl⟩
  | some t =>
    cases hc : alookup t.cols f with
    | none => exact ⟨usecolsMsg f, by simp [hc]⟩
    | some cells =>
      by_cases hd : colDtype cells = .int64 <;>
        exact ⟨floatNoneMsg, by simp [hc, hd, pyFloat, Except.map]⟩

theorem except_map_error_iff {α β γ : Type} (g : α → β) (x : Except γ α)
    (e : γ) : x.map g = .error e ↔ x = .error e := by
  cases x <;> simp [Except.map]

theorem except_map_eq_ok {α β γ : Type} (g : α → β) (x : Except γ α)
    (b : β) (h : x.map g = .ok b) : ∃ a, x = .ok a ∧ b = g a := by
  cases x with
  | error e => simp [Except.map] at h
  | ok a => exact ⟨a, rfl, by simpa [Except.map] using h.symm⟩

/-- A numeric feature whose submitted text does not parse as a float
fails to coerce, provided its training column exists (or the training
file is absent). -/
theorem coerce_value_error_of_bad_numeric (env : Env)
    (numCols : List String) (f s : String) (hnum : f ∈ numCols)
    (hbad : parsePyFloat s = none)
    (hcsv : env.trainCSV = none ∨
      ∃ t, env.trainCSV = some t ∧
        ∀ g ∈ numCols, (alookup t.cols g).isSome = true) :
    ∃ e, coerce_value env numCols f (some s) = .error e := by
  rw [coerce_value, if_pos hnum]
  have hpf : pyFloat (some s) = .error (floatValueMsg s) := by
    rw [pyFloat, hbad]
  rcases hcsv with h | ⟨t, ht, hall⟩
  · rw [h]
    exact ⟨floatValueMsg s, by simp [hpf, Except.map]⟩
  · rw [ht]
    cases hc : alookup t.cols f with
    | none => exact absurd (hall f hnum) (by simp [hc])
    | some cells =>
      by_cases hd : colDtype cells = .int64 <;>
        exact ⟨floatValueMsg s, by simp [hc, hd, hpf, Except.map]⟩

/-- Under the same proviso, every error a coercion can raise is a
float-conversion failure. -/
theorem coerce_value_error_classify (env : Env) (numCols : List String)
    (f : String) (v : Option String) (e : String)
    (hcsv : env.trainCSV = none ∨
      ∃ t, env.trainCSV = some t ∧
        ∀ g ∈ numCols, (alookup t.cols g).isSome = true)
    (h : coerce_value env numCols f v = .error e) : IsCoercionErrMsg e := by
  rw [coerce_value] at h
  by_cases hnum : f ∈ numCols
  · rw [if_pos hnum] at h
    split at h
    · -- training file present
      rename_i t' heq
      have hall : ∀ g ∈ numCols, (alookup t'.cols g).isSome = true := by
        rcases hcsv with hcn | ⟨t, ht, hall⟩
        · rw [hcn] at heq; cases heq
        · rw [ht] at heq; injection heq with heq'; rw [← heq']; exact hall
      split at h
      · rename_i hc
        exact absurd (hall f hnum) (by simp [hc])
      · rename_i cells hc
        split at h <;>
          exact pyFloat_error_classify v e ((except_map_error_iff _ _ _).mp h)
    · -- training file absent
      exact pyFloat_error_classify v e ((except_map_error_iff _ _ _).mp h)
  · rw [if_neg hnum] at h
    cases h

/-! ### Claim theorems -/

/-- **C9.** The process-wide loaded artifacts and schema state are
never mutated by any request handler: for every request to any of the
four endpoints, the globals after the request are the globals before
it. (No handler in the source contains a `global` statement or assigns
to a loaded object, so each handler returns its state unchanged.) -/
theorem handlers_never_mutate_globals (env : Env) (st : AppState)
    (form : List (String × String)) (files : List (String × FilePart)) :
    (home env st).2 = st ∧ (predict env st form).2 = st ∧
    (batch_predict st files).2 = st ∧ (health st).2 = st :=
  ⟨rfl, rfl, rfl, rfl⟩

/-- **C3.** The health endpoint always returns a 200 JSON response;
`model_loaded` is true exactly when the model global is set,
`preprocessor_loaded` exactly when the preprocessor global is set, and
`features_count` is the number of declared features (0 when the feature
list is unset); after a startup that failed to find an artifact file,
both loaded flags are false. -/
theorem health_reflects_loaded_state (st stB : AppState) (env : Env)
    (fs : List String) (hfs : st.features = some fs)
    (hB : stB.features = none)
    (henv : env.preprocFile = none ∨ env.modelFile = none) :
    (health st).1.1 = 200 ∧
    ((health st).1.2.model_loaded = true ↔ st.model ≠ none) ∧
    ((health st).1.2.preprocessor_loaded = true ↔ st.preprocessor ≠ none) ∧
    (health st).1.2.features_count = fs.length ∧
    (health stB).1.2.features_count = 0 ∧
    (health (startup env)).1.2.model_loaded = false ∧
    (health (startup env)).1.2.preprocessor_loaded = false := by
  have hstart : startup env = initState := by
    rw [startup, load_artifacts]
    rcases henv with h | h
    · rw [h]; rfl
    · cases hp : env.preprocFile with
      | none => rfl
      | some pre => rw [h]; rfl
  refine ⟨rfl, ?_, ?_, ?_, ?_, ?_, ?_⟩
  · simp [health, Option.isSome_iff_ne_none]
  · simp [health, Option.isSome_iff_ne_none]
  · simp [health, hfs]
  · simp [health, hB]
  · rw [hstart]; rfl
  · rw [hstart]; rfl

/-- **C10.** If artifact loading raises at startup (here: the model
file is missing), `load_training_unique_values` is skipped entirely and
the dropdown metadata stays empty, even though the training-sample CSV
is present. -/
theorem startup_failure_skips_uniques (env : Env) (t : Frame)
    (hm : env.modelFile = none) (ht : env.trainCSV = some t) :
    startup env = initState ∧ (startup env).training_uniques = [] := by
  have h1 : startup env = initState := by
    rw [startup, load_artifacts]
    cases hp : env.preprocFile with
    | none => rfl
    | some pre => rw [hm]; rfl
  exact ⟨h1, by rw [h1]; rfl⟩

/-- **C7.** A batch request with no `file` part, or whose file part has
an empty filename, is answered with a 400 JSON error without the upload
being read: the no-file answer is fixed, and the empty-filename answer
is the same for any two uploads regardless of their contents. -/
theorem batch_predict_rejects_missing_file (st : AppState)
    (files1 files2 files3 : List (String × FilePart)) (fp fp' : FilePart)
    (h1 : alookup files1 "file" = none)
    (h2 : alookup files2 "file" = some fp) (he : fp.filename = "")
    (h3 : alookup files3 "file" = some fp') (he' : fp'.filename = "") :
    (batch_predict st files1).1 = ⟨400, .failure "No file uploaded"⟩ ∧
    (batch_predict st files2).1 = ⟨400, .failure "No file selected"⟩ ∧
    (batch_predict st files3).1 = (batch_predict st files2).1 := by
  refine ⟨?_, ?_, ?_⟩ <;> simp [batch_predict, h1, h2, h3, he, he']

/-- **C8.** When every declared feature coerces successfully and the
transform/predict pipeline succeeds, `/predict` answers 200 with
`{success: true, prediction, input_data}` where the prediction is the
model's first output rounded to 2 decimal places; and every `/predict`
response whatsoever is either such a 200 success or a 400
`{success: false, error}`. -/
theorem predict_success_shape (env envB : Env) (st stB : AppState)
    (form formB : List (String × String)) (input : List (String × Cell))
    (pre : Preproc) (m : Model) (tm : TMat) (p : Rat) (ps : List Rat)
    (hb : build_input env st form = .ok input)
    (hpre : st.preprocessor = some pre)
    (hm : st.model = some m)
    (htr : pre.transform
      (singleFrame (st.features.getD (input.map Prod.fst)) input) = .ok tm)
    (hpred : m.predict tm = .ok (p :: ps)) :
    (predict env st form).1 = ⟨200, .success (pyRound2 p) input⟩ ∧
    ((∃ q inp, (predict envB stB formB).1 = ⟨200, .success q inp⟩) ∨
      (∃ e, (predict envB stB formB).1 = ⟨400, .failure e⟩)) := by
  constructor
  · have hps : predict_single st input = .ok p := by
      rw [predict_single]
      rw [hpre]
      simp only [htr, hm, hpred]
    simp [predict, hb, hps]
  · rw [predict]
    cases hbB : build_input envB stB formB with
    | error e => exact .inr ⟨e, by simp [hbB]⟩
    | ok inp =>
      cases hpB : predict_single stB inp with
      | error e => exact .inr ⟨e, by simp [hbB, hpB]⟩
      | ok q => exact .inl ⟨pyRound2 q, inp, by simp [hbB, hpB]⟩

/-- Artifacts used by the concrete scenarios below: a preprocessor and
model that accept anything (as a fitted sklearn pipeline with
`handle_unknown="ignore"` encoding would). -/
def cexPre : Preproc := ⟨fun _ => .ok []⟩

def cexModel : Model := ⟨fun _ => .ok [5]⟩

/-- Globals after a successful startup whose schema declares the single
categorical feature `"Brand"`. -/
def cexSt : AppState :=
  { preprocessor := some cexPre, model := some cexModel,
    features := some ["Brand"], num_cols := [], cat_cols := ["Brand"],
    training_uniques := [] }

def cexEnv : Env :=
  { preprocFile := some cexPre, modelFile := some cexModel,
    featureListFile := some ⟨[], ["Brand"]⟩, trainCSV := none }

/-- **C1, counterexample.** A single-predict request that omits the
declared categorical feature `"Brand"` is *not* rejected: `str(None)`
turns the missing value into the string `"None"` and the request
succeeds with a 200 response built from that defaulted input,
contradicting the claim that any omitted feature yields a 400. -/
theorem predict_missing_categorical_not_rejected :
    cexSt.features = some ["Brand"] ∧
    alookup ([] : List (String × String)) "Brand" = none ∧
    (predict cexEnv cexSt []).1 =
      ⟨200, .success 5 [("Brand", Cell.str "None")]⟩ := by
  refine ⟨rfl, rfl, ?_⟩
  decide

/-- **C1, amended.** A single-predict request that omits a declared
*numeric* feature is answered with a 400 error and never a 200 (the
`float(None)` coercion raises before any prediction); a missing
*categorical* feature, in contrast, does not fail coercion: it is
silently defaulted to the string `"None"`. -/
theorem predict_missing_numeric_rejected (env envC : Env)
    (st : AppState) (form formC : List (String × String))
    (fs numC : List String) (f g : String)
    (hfs : st.features = some fs) (hf : f ∈ fs)
    (hnum : f ∈ st.num_cols)
    (hmiss : alookup form f = none)
    (hg : g ∉ numC) (hmissC : alookup formC g = none) :
    (∃ e, (predict env st form).1 = ⟨400, .failure e⟩) ∧
    coerce_value envC numC g (alookup formC g) = .ok (Cell.str "None") := by
  constructor
  · have herr := coerce_value_error_of_none_numeric env st.num_cols f hnum
    rw [← hmiss] at herr
    obtain ⟨e, hbe⟩ := build_input_from_error_of_mem env st.num_cols form f
      fs [] hf herr
    exact ⟨e, by simp [predict, build_input, hfs, hbe]⟩
  · rw [hmissC, coerce_value, if_neg hg]
    rfl

/-- **C6.** Submitting a non-numeric string for a declared numeric
feature makes `/predict` answer 400 with an error message that is a
float-coercion failure message (provided every numeric feature's column
exists in the training sample, or the training file is absent). -/
theorem predict_bad_numeric_rejected (env : Env) (st : AppState)
    (form : List (String × String)) (fs : List String) (f s : String)
    (hfs : st.features = some fs) (hf : f ∈ fs)
    (hnum : f ∈ st.num_cols)
    (hval : alookup form f = some s) (hbad : parsePyFloat s = none)
    (hcsv : env.trainCSV = none ∨
      ∃ t, env.trainCSV = some t ∧
        ∀ g ∈ st.num_cols, (alookup t.cols g).isSome = true) :
    ∃ e, (predict env st form).1 = ⟨400, .failure e⟩ ∧
      IsCoercionErrMsg e := by
  have herr := coerce_value_error_of_bad_numeric env st.num_cols f s hnum
    hbad hcsv
  rw [← hval] at herr
  obtain ⟨e, hbe⟩ := build_input_from_error_of_mem env st.num_cols form f
    fs [] hf herr
  refine ⟨e, by simp [predict, build_input, hfs, hbe], ?_⟩
  exact build_input_from_error_classify env st.num_cols form
    IsCoercionErrMsg fs [] e
    (fun g _ e' he' => coerce_value_error_classify env st.num_cols g
      (alookup form g) e' hcsv he') hbe

/-- **C4.** In a successful single-predict request the stored input
value of each feature follows the coercion rules: a numeric feature is
coerced to `int` when the training column (re-read from the CSV in the
current environment at request time) has integer dtype, to `float`
otherwise; to `float` when the training file is absent; and a
categorical feature is coerced to `str` of its raw value. The four
scenarios are witnessed by four independent binder groups. -/
theorem predict_coercion_follows_dtype
    (env1 env2 env3 env4 : Env) (st1 st2 st3 st4 : AppState)
    (form1 form2 form3 form4 : List (String × String))
    (fs1 fs2 fs3 fs4 : List String) (f1 f2 f3 f4 : String)
    (input1 input2 input3 input4 : List (String × Cell))
    (t1 t2 : Frame) (cells1 cells2 : List Cell)
    (hfs1 : st1.features = some fs1) (hnd1 : fs1.Nodup) (hf1 : f1 ∈ fs1)
    (hn1 : f1 ∈ st1.num_cols) (ht1 : env1.trainCSV = some t1)
    (hc1 : alookup t1.cols f1 = some cells1)
    (hd1 : colDtype cells1 = .int64)
    (hb1 : build_input env1 st1 form1 = .ok input1)
    (hfs2 : st2.features = some fs2) (hnd2 : fs2.Nodup) (hf2 : f2 ∈ fs2)
    (hn2 : f2 ∈ st2.num_cols) (ht2 : env2.trainCSV = some t2)
    (hc2 : alookup t2.cols f2 = some cells2)
    (hd2 : colDtype cells2 ≠ .int64)
    (hb2 : build_input env2 st2 form2 = .ok input2)
    (hfs3 : st3.features = some fs3) (hnd3 : fs3.Nodup) (hf3 : f3 ∈ fs3)
    (hn3 : f3 ∈ st3.num_cols) (ht3 : env3.trainCSV = none)
    (hb3 : build_input env3 st3 form3 = .ok input3)
    (hfs4 : st4.features = some fs4) (hnd4 : fs4.Nodup) (hf4 : f4 ∈ fs4)
    (hn4 : f4 ∉ st4.num_cols)
    (hb4 : build_input env4 st4 form4 = .ok input4) :
    (∃ q, pyFloat (alookup form1 f1) = .ok q ∧
      alookup input1 f1 = some (Cell.int (pyTrunc q))) ∧
    (∃ q, pyFloat (alookup form2 f2) = .ok q ∧
      alookup input2 f2 = some (Cell.float q)) ∧
    (∃ q, pyFloat (alookup form3 f3) = .ok q ∧
      alookup input3 f3 = some (Cell.float q)) ∧
    alookup input4 f4 =
      some (Cell.str (pyStrOfOpt (alookup form4 f4))) := by
  refine ⟨?_, ?_, ?_, ?_⟩
  · rw [build_input, hfs1] at hb1
    obtain ⟨hA, _⟩ := build_input_from_ok_lookup env1 st1.num_cols form1
      fs1 [] input1 hnd1 (fun g _ => rfl) hb1
    obtain ⟨c, hok, hlk⟩ := hA f1 hf1
    simp only [coerce_value, hn1, if_true, ht1] at hok
    simp only [hc1, hd1, if_true] at hok
    obtain ⟨q, hpf, hcq⟩ := except_map_eq_ok _ _ _ hok
    exact ⟨q, hpf, by rw [hlk, hcq]⟩
  · rw [build_input, hfs2] at hb2
    obtain ⟨hA, _⟩ := build_input_from_ok_lookup env2 st2.num_cols form2
      fs2 [] input2 hnd2 (fun g _ => rfl) hb2
    obtain ⟨c, hok, hlk⟩ := hA f2 hf2
    simp only [coerce_value, hn2, if_true, ht2] at hok
    simp only [hc2] at hok
    rw [if_neg hd2] at hok
    obtain ⟨q, hpf, hcq⟩ := except_map_eq_ok _ _ _ hok
    exact ⟨q, hpf, by rw [hlk, hcq]⟩
  · rw [build_input, hfs3] at hb3
    obtain ⟨hA, _⟩ := build_input_from_ok_lookup env3 st3.num_cols form3
      fs3 [] input3 hnd3 (fun g _ => rfl) hb3
    obtain ⟨c, hok, hlk⟩ := hA f3 hf3
    simp only [coerce_value, hn3, if_true, ht3] at hok
    obtain ⟨q, hpf, hcq⟩ := except_map_eq_ok _ _ _ hok
    exact ⟨q, hpf, by rw [hlk, hcq]⟩
  · rw [build_input, hfs4] at hb4
    obtain ⟨hA, _⟩ := build_input_from_ok_lookup env4 st4.num_cols form4
      fs4 [] input4 hnd4 (fun g _ => rfl) hb4
    obtain ⟨c, hok, hlk⟩ := hA f4 hf4
    rw [coerce_value, if_neg hn4] at hok
    cases hok
    exact hlk

theorem header_dropCol (f : Frame) (n : String) :
    (f.dropCol n).header = f.header.filter (fun c => c ≠ n) := by
  show (f.cols.filter _).map Prod.fst = (f.cols.map Prod.fst).filter _
  induction f.cols with
  | nil => rfl
  | cons p l ih =>
    rw [List.map_cons, List.filter_cons, List.filter_cons]
    by_cases hp : p.1 = n
    · rw [if_neg (by simp [hp]), if_neg (by simp [hp])]
      exact ih
    · rw [if_pos (by simp [hp]), if_pos (by simp [hp]), List.map_cons, ih]

theorem filter_ne_eq_self (l : List String) (k : String) (h : k ∉ l) :
    l.filter (fun c => c ≠ k) = l := by
  induction l with
  | nil => rfl
  | cons a l ih =>
    have ha : a ≠ k := fun he => h (he ▸ List.mem_cons_self a l)
    rw [List.filter_cons, if_pos (by simp [ha])]
    rw [ih (fun hm => h (List.mem_cons_of_mem a hm))]

/-- The frame handed to the pipeline by `predict_batch` has exactly the
input columns minus the target column. -/
theorem header_batch_input_frame (f : Frame) :
    (batch_input_frame f).header =
      f.header.filter (fun c => c ≠ "Price_INR") := by
  rw [batch_input_frame]
  by_cases hin : "Price_INR" ∈ f.header
  · rw [if_pos hin, header_dropCol]
  · rw [if_neg hin, filter_ne_eq_self f.header _ hin]

/-- **C2.** A batch upload whose columns match the feature schema (with
the target column optionally present) is answered 200 with the CSV
attachment `predictions.csv`: the output has the same row count as the
input, its columns are the schema columns plus exactly one new column
`Predicted_Price_INR`, that column carries the model's prediction for
every row, and the pipeline was applied to the frame with the target
column dropped. -/
theorem batch_predict_appends_prediction_column
    (st : AppState) (files : List (String × FilePart)) (fp : FilePart)
    (f : Frame) (fl : List String) (pre : Preproc) (m : Model)
    (tm : TMat) (preds : List Rat)
    (hfile : alookup files "file" = some fp) (hname : fp.filename ≠ "")
    (hcont : fp.content = .ok f)
    (hrect : f.Rect)
    (hfl : st.features = some fl) (hflne : fl ≠ [])
    (hmatch : f.header.filter (fun c => c ≠ "Price_INR") = fl)
    (hpn : "Predicted_Price_INR" ∉ fl)
    (hpre : st.preprocessor = some pre) (hm : st.model = some m)
    (htr : pre.transform (batch_input_frame f) = .ok tm)
    (hpred : m.predict tm = .ok preds)
    (hlen : preds.length = (batch_input_frame f).nrows) :
    ∃ out : Frame,
      (batch_predict st files).1 =
        ⟨200, .csvAttachment "predictions.csv" out⟩ ∧
      out.header = fl ++ ["Predicted_Price_INR"] ∧
      out.nrows = f.nrows ∧
      alookup out.cols "Predicted_Price_INR" =
        some (preds.map Cell.float) ∧
      preds.length = f.nrows ∧
      (batch_input_frame f).header = fl := by
  have hdfh : (batch_input_frame f).header = fl := by
    rw [header_batch_input_frame, hmatch]
  have hdfcols : ∃ c rest, (batch_input_frame f).cols = c :: rest ∧
      c ∈ f.cols := by
    cases hcols : (batch_input_frame f).cols with
    | nil =>
      exfalso
      apply hflne
      rw [← hdfh]
      show ((batch_input_frame f).cols.map Prod.fst) = []
      rw [hcols]
      rfl
    | cons c rest =>
      refine ⟨c, rest, rfl, ?_⟩
      rw [batch_input_frame] at hcols
      by_cases hin : "Price_INR" ∈ f.header
      · rw [if_pos hin] at hcols
        have : c ∈ f.cols.filter (fun p => p.1 ≠ "Price_INR") := by
          show c ∈ (Frame.dropCol f "Price_INR").cols
          rw [hcols]; exact List.mem_cons_self c rest
        exact List.mem_of_mem_filter this
      · rw [if_neg hin] at hcols
        rw [hcols]; exact List.mem_cons_self c rest
  obtain ⟨c, rest, hcols, hcmem⟩ := hdfcols
  have hdfnrows : (batch_input_frame f).nrows = f.nrows := by
    rw [Frame.nrows, hcols]
    exact hrect c hcmem
  have hnotin : "Predicted_Price_INR" ∉ (batch_input_frame f).header := by
    rw [hdfh]; exact hpn
  have hset : setCol (batch_input_frame f) "Predicted_Price_INR"
      (preds.map Cell.float) =
      .ok ⟨(batch_input_frame f).cols ++
        [("Predicted_Price_INR", preds.map Cell.float)]⟩ := by
    rw [setCol, if_pos (by rw [List.length_map]; exact hlen),
      if_neg hnotin]
  have hpb : predict_batch st f =
      .ok ⟨(batch_input_frame f).cols ++
        [("Predicted_Price_INR", preds.map Cell.float)]⟩ := by
    rw [predict_batch, hpre]
    simp only [htr, hm, hpred]
    exact hset
  refine ⟨⟨(batch_input_frame f).cols ++
    [("Predicted_Price_INR", preds.map Cell.float)]⟩, ?_, ?_, ?_, ?_, ?_,
    hdfh⟩
  · simp [batch_predict, hfile, hname, hcont, hpb]
  · show ((batch_input_frame f).cols ++ _).map Prod.fst = _
    rw [List.map_append]
    show (batch_input_frame f).header ++ _ = _
    rw [hdfh]
    rfl
  · show Frame.nrows _ = f.nrows
    rw [Frame.nrows]
    rw [show ((batch_input_frame f).cols ++
      [("Predicted_Price_INR", preds.map Cell.float)]) =
        c :: (rest ++ [("Predicted_Price_INR", preds.map Cell.float)]) by
      rw [hcols]; rfl]
    have := hrect c hcmem
    simpa using this
  · show alookup ((batch_input_frame f).cols ++ _) _ = _
    rw [alookup_append_of_none _ _ _
      (alookup_eq_none_of_not_mem _ _ hnotin)]
    rw [alookup, if_pos rfl]
  · rw [hlen, hdfnrows]

/-! ### Lemmas for the dropdown ordering (C5) -/

theorem uniqueKeyLe_trans (cells : List Cell) :
    ∀ a b c : Cell, uniqueKeyLe cells a b → uniqueKeyLe cells b c →
      uniqueKeyLe cells a c := by
  intro a b c hab hbc
  rw [uniqueKeyLe, decide_eq_true_eq] at *
  rcases hab with h1 | ⟨h1, h1s⟩ <;> rcases hbc with h2 | ⟨h2, h2s⟩
  · exact .inl (h2.trans h1)
  · exact .inl (h2 ▸ h1)
  · exact .inl (by rw [h1]; exact h2)
  · exact .inr ⟨h1.trans h2, h1s.trans h2s⟩

theorem uniqueKeyLe_total (cells : List Cell) :
    ∀ a b : Cell, uniqueKeyLe cells a b || uniqueKeyLe cells b a := by
  intro a b
  rw [uniqueKeyLe, uniqueKeyLe]
  rcases lt_trichotomy (freqOf cells a) (freqOf cells b) with h | h | h
  · simp [h]
  · rcases le_total (cellStr a) (cellStr b) with hs | hs
    · simp [h, hs]
    · simp [h, hs]
  · simp [h]

/-- A key that never appears among the remaining columns keeps its
lookup across the `load_training_unique_values` loop. -/
theorem alookup_uniquesOf_not_mem :
    ∀ (cols : List (String × List Cell)) (acc : List (String × List String))
      (k : String), k ∉ cols.map Prod.fst →
      alookup (uniquesOf cols acc) k = alookup acc k := by
  intro cols
  induction cols with
  | nil => intro acc k _; rfl
  | cons p rest ih =>
    intro acc k hk
    have hk1 : p.1 ≠ k := fun he => hk (by simp [he])
    have hk2 : k ∉ rest.map Prod.fst := fun hm => hk (by simp [hm])
    obtain ⟨name, cells⟩ := p
    rw [uniquesOf]
    by_cases h1 : name = "Price_INR"
    · rw [if_pos h1]; exact ih acc k hk2
    · rw [if_neg h1]
      by_cases h2 : isNumericDtype (colDtype cells) = true
      · rw [if_pos h2]; exact ih acc k hk2
      · rw [if_neg h2]
        rw [ih _ k hk2, alookup_dictInsert_ne _ _ _ _ hk1]

/-- In the `training_uniques` dict built by the loop, a qualifying
column (non-target, non-numeric dtype, distinct column names) maps to
its frequency-sorted stringified unique values. -/
theorem alookup_uniquesOf :
    ∀ (cols : List (String × List Cell)) (acc : List (String × List String))
      (col : String) (cells : List Cell), (col, cells) ∈ cols →
      (cols.map Prod.fst).Nodup → col ≠ "Price_INR" →
      isNumericDtype (colDtype cells) = false →
      alookup (uniquesOf cols acc) col = some (sortedUniqueStrings cells) := by
  intro cols
  induction cols with
  | nil => intro acc col cells hmem; exact absurd hmem (List.not_mem_nil _)
  | cons p rest ih =>
    intro acc col cells hmem hnd hcol hobj
    obtain ⟨name, cs⟩ := p
    have hnd1 : name ∉ rest.map Prod.fst := by
      rw [List.map_cons] at hnd
      exact (List.nodup_cons.mp hnd).1
    have hnd2 : (rest.map Prod.fst).Nodup := by
      rw [List.map_cons] at hnd
      exact (List.nodup_cons.mp hnd).2
    rcases List.mem_cons.mp hmem with heq | hrest
    · -- the qualifying column is the head
      injection heq with e1 e2
      subst e1
      subst e2
      rw [uniquesOf, if_neg hcol, if_neg (by rw [hobj]; simp)]
      rw [alookup_uniquesOf_not_mem rest _ col hnd1]
      exact alookup_dictInsert_self _ _ _
    · -- the qualifying column is in the tail
      rw [uniquesOf]
      by_cases h1 : name = "Price_INR"
      · rw [if_pos h1]; exact ih acc col cells hrest hnd2 hcol hobj
      · rw [if_neg h1]
        by_cases h2 : isNumericDtype (colDtype cs) = true
        · rw [if_pos h2]; exact ih acc col cells hrest hnd2 hcol hobj
        · rw [if_neg h2]; exact ih _ col cells hrest hnd2 hcol hobj

/-- **C5.** For every categorical (non-numeric, non-target) column of
the training sample, the dropdown candidate list is the column's
distinct observed (non-NaN) values, stringified, in an order sorted by
descending frequency with ties broken by ascending string order; when
the training sample is absent the metadata is left empty. -/
theorem dropdown_sorted_by_frequency (env envB : Env) (st stB : AppState)
    (t : Frame) (col : String) (cells : List Cell)
    (ht : env.trainCSV = some t) (hnd : t.header.Nodup)
    (hmem : (col, cells) ∈ t.cols) (hcol : col ≠ "Price_INR")
    (hobj : colDtype cells = .object)
    (hst : st.training_uniques = [])
    (htB : envB.trainCSV = none) (hstB : stB.training_uniques = []) :
    (∃ us : List Cell,
      alookup (load_training_unique_values env st).training_uniques col =
        some (us.map cellStr) ∧
      us.Perm (uniqueList (dropna cells)) ∧
      us.Pairwise (fun a b => freqOf cells b < freqOf cells a ∨
        (freqOf cells a = freqOf cells b ∧ cellStr a ≤ cellStr b))) ∧
    (load_training_unique_values envB stB).training_uniques = [] := by
  constructor
  · refine ⟨(uniqueList (dropna cells)).mergeSort (uniqueKeyLe cells),
      ?_, ?_, ?_⟩
    · rw [load_training_unique_values, ht]
      show alookup (uniquesOf t.cols st.training_uniques) col = _
      rw [hst]
      exact alookup_uniquesOf t.cols [] col cells hmem hnd hcol
        (by rw [hobj]; rfl)
    · exact List.mergeSort_perm _ _
    · have hp := @List.sorted_mergeSort Cell (uniqueKeyLe cells)
        (uniqueKeyLe_trans cells)
        (uniqueKeyLe_total cells) (uniqueList (dropna cells))
      exact hp.imp (fun h => by
        rw [uniqueKeyLe, decide_eq_true_eq] at h
        exact h)
  · rw [load_training_unique_values, htB]
    exact hstB

/-! ### Concrete scenario data for the witnesses -/

/-- A small training sample: integer column `Year`, float column
`Mileage` (with a NaN), categorical column `City`, target `Price_INR`. -/
def wTrain : Frame :=
  ⟨[("Year", [Cell.int 2011, Cell.int 2012, Cell.int 2013]),
    ("Mileage", [Cell.float (Rat.divInt 3 2), Cell.nan, Cell.float 2]),
    ("City", [Cell.str "Pune", Cell.str "Delhi", Cell.str "Pune"]),
    ("Price_INR", [Cell.int 100, Cell.int 200, Cell.int 300])]⟩

def wEnv : Env :=
  { preprocFile := some cexPre, modelFile := some cexModel,
    featureListFile := none, trainCSV := some wTrain }

/-- An environment whose artifact files are missing (startup fails). -/
def wEnvBad : Env :=
  { preprocFile := none, modelFile := none, featureListFile := none,
    trainCSV := some wTrain }

def wSt : AppState :=
  { preprocessor := some cexPre, model := some cexModel,
    features := some ["Year", "City"], num_cols := ["Year"],
    cat_cols := ["City"], training_uniques := [] }

def wStM : AppState :=
  { preprocessor := some cexPre, model := some cexModel,
    features := some ["Mileage"], num_cols := ["Mileage"],
    cat_cols := [], training_uniques := [] }

/-- A model producing one prediction per row of a two-row batch. -/
def wModel2 : Model := ⟨fun _ => .ok [7, 8]⟩

def wStBatch : AppState :=
  { preprocessor := some cexPre, model := some wModel2,
    features := some ["Year"], num_cols := ["Year"], cat_cols := [],
    training_uniques := [] }

/-- A two-row upload whose columns are the schema column plus the
target. -/
def wBatch : Frame :=
  ⟨[("Year", [Cell.int 1, Cell.int 2]),
    ("Price_INR", [Cell.int 9, Cell.int 9])]⟩

def wFp : FilePart := ⟨"data.csv", .ok wBatch⟩

/-! ### Witnesses -/

theorem health_reflects_loaded_state_witness :
    wSt.features = some ["Year", "City"] ∧
    initState.features = none ∧
    (wEnvBad.preprocFile = none ∨ wEnvBad.modelFile = none) ∧
    ((health wSt).1.1 = 200 ∧
      ((health wSt).1.2.model_loaded = true ↔ wSt.model ≠ none) ∧
      ((health wSt).1.2.preprocessor_loaded = true ↔
        wSt.preprocessor ≠ none) ∧
      (health wSt).1.2.features_count = ["Year", "City"].length ∧
      (health initState).1.2.features_count = 0 ∧
      (health (startup wEnvBad)).1.2.model_loaded = false ∧
      (health (startup wEnvBad)).1.2.preprocessor_loaded = false) :=
  ⟨rfl, rfl, .inl rfl,
    health_reflects_loaded_state wSt initState wEnvBad ["Year", "City"]
      rfl rfl (.inl rfl)⟩

theorem startup_failure_skips_uniques_witness :
    wEnvBad.modelFile = none ∧ wEnvBad.trainCSV = some wTrain ∧
    (startup wEnvBad = initState ∧
      (startup wEnvBad).training_uniques = []) :=
  ⟨rfl, rfl, startup_failure_skips_uniques wEnvBad wTrain rfl rfl⟩

theorem batch_predict_rejects_missing_file_witness :
    alookup ([] : List (String × FilePart)) "file" = none ∧
    alookup [("file", FilePart.mk "" (.ok wBatch))] "file" =
      some (FilePart.mk "" (.ok wBatch)) ∧
    (FilePart.mk "" (.ok wBatch)).filename = "" ∧
    alookup [("file", FilePart.mk "" (.error "boom"))] "file" =
      some (FilePart.mk "" (.error "boom")) ∧
    (FilePart.mk "" (.error "boom")).filename = "" ∧
    ((batch_predict wSt []).1 = ⟨400, .failure "No file uploaded"⟩ ∧
      (batch_predict wSt [("file", FilePart.mk "" (.ok wBatch))]).1 =
        ⟨400, .failure "No file selected"⟩ ∧
      (batch_predict wSt [("file", FilePart.mk "" (.error "boom"))]).1 =
        (batch_predict wSt [("file", FilePart.mk "" (.ok wBatch))]).1) :=
  ⟨rfl, by decide, rfl, by decide, rfl,
    batch_predict_rejects_missing_file wSt []
      [("file", FilePart.mk "" (.ok wBatch))]
      [("file", FilePart.mk "" (.error "boom"))]
      (FilePart.mk "" (.ok wBatch)) (FilePart.mk "" (.error "boom"))
      rfl (by decide) rfl (by decide) rfl⟩

theorem predict_success_shape_witness :
    build_input cexEnv cexSt [("Brand", "BMW")] =
      .ok [("Brand", Cell.str "BMW")] ∧
    cexSt.preprocessor = some cexPre ∧
    cexSt.model = some cexModel ∧
    cexPre.transform
      (singleFrame (cexSt.features.getD
        ([("Brand", Cell.str "BMW")].map Prod.fst))
        [("Brand", Cell.str "BMW")]) = .ok [] ∧
    cexModel.predict [] = .ok (5 :: []) ∧
    ((predict cexEnv cexSt [("Brand", "BMW")]).1 =
      ⟨200, .success (pyRound2 5) [("Brand", Cell.str "BMW")]⟩ ∧
     ((∃ q inp, (predict cexEnv cexSt []).1 = ⟨200, .success q inp⟩) ∨
      (∃ e, (predict cexEnv cexSt []).1 = ⟨400, .failure e⟩))) :=
  ⟨by decide, rfl, rfl, rfl, rfl,
    predict_success_shape cexEnv cexEnv cexSt cexSt [("Brand", "BMW")] []
      [("Brand", Cell.str "BMW")] cexPre cexModel [] 5 []
      (by decide) rfl rfl rfl rfl⟩

theorem predict_missing_numeric_rejected_witness :
    wSt.features = some ["Year", "City"] ∧
    "Year" ∈ (["Year", "City"] : List String) ∧
    "Year" ∈ wSt.num_cols ∧
    alookup ([] : List (String × String)) "Year" = none ∧
    "City" ∉ (["Year"] : List String) ∧
    alookup ([] : List (String × String)) "City" = none ∧
    ((∃ e, (predict wEnv wSt []).1 = ⟨400, .failure e⟩) ∧
      coerce_value wEnv ["Year"] "City"
        (alookup ([] : List (String × String)) "City") =
        .ok (Cell.str "None")) :=
  ⟨rfl, by decide, by decide, rfl, by decide, rfl,
    predict_missing_numeric_rejected wEnv wEnv wSt [] []
      ["Year", "City"] ["Year"] "Year" "City"
      rfl (by decide) (by decide) rfl (by decide) rfl⟩

theorem predict_bad_numeric_rejected_witness :
    wSt.features = some ["Year", "City"] ∧
    "Year" ∈ (["Year", "City"] : List String) ∧
    "Year" ∈ wSt.num_cols ∧
    alookup [("Year", "abc")] "Year" = some "abc" ∧
    parsePyFloat "abc" = none ∧
    (wEnv.trainCSV = none ∨
      ∃ t, wEnv.trainCSV = some t ∧
        ∀ g ∈ wSt.num_cols, (alookup t.cols g).isSome = true) ∧
    (∃ e, (predict wEnv wSt [("Year", "abc")]).1 = ⟨400, .failure e⟩ ∧
      IsCoercionErrMsg e) :=
  ⟨rfl, by decide, by decide, by decide, by decide,
    .inr ⟨wTrain, rfl, by decide⟩,
    predict_bad_numeric_rejected wEnv wSt [("Year", "abc")]
      ["Year", "City"] "Year" "abc" rfl (by decide) (by decide)
      (by decide) (by decide) (.inr ⟨wTrain, rfl, by decide⟩)⟩

theorem batch_predict_appends_prediction_column_witness :
    alookup [("file", wFp)] "file" = some wFp ∧
    wFp.filename ≠ "" ∧
    wFp.content = .ok wBatch ∧
    wBatch.Rect ∧
    wStBatch.features = some ["Year"] ∧
    (["Year"] : List String) ≠ [] ∧
    wBatch.header.filter (fun c => c ≠ "Price_INR") = ["Year"] ∧
    "Predicted_Price_INR" ∉ (["Year"] : List String) ∧
    wStBatch.preprocessor = some cexPre ∧
    wStBatch.model = some wModel2 ∧
    cexPre.transform (batch_input_frame wBatch) = .ok [] ∧
    wModel2.predict [] = .ok [7, 8] ∧
    ([(7 : Rat), 8].length = (batch_input_frame wBatch).nrows) ∧
    (∃ out : Frame,
      (batch_predict wStBatch [("file", wFp)]).1 =
        ⟨200, .csvAttachment "predictions.csv" out⟩ ∧
      out.header = ["Year"] ++ ["Predicted_Price_INR"] ∧
      out.nrows = wBatch.nrows ∧
      alookup out.cols "Predicted_Price_INR" =
        some ([(7 : Rat), 8].map Cell.float) ∧
      ([(7 : Rat), 8]).length = wBatch.nrows ∧
      (batch_input_frame wBatch).header = ["Year"]) :=
  ⟨by decide, by decide, rfl, by decide, rfl, by decide, by decide,
    by decide, rfl, rfl, rfl, rfl, by decide,
    batch_predict_appends_prediction_column wStBatch [("file", wFp)] wFp
      wBatch ["Year"] cexPre wModel2 [] [7, 8]
      (by decide) (by decide) rfl (by decide) rfl (by decide) (by decide)
      (by decide) rfl rfl rfl rfl (by decide)⟩

theorem predict_coercion_follows_dtype_witness :
    wSt.features = some ["Year", "City"] ∧
    (["Year", "City"] : List String).Nodup ∧
    "Year" ∈ (["Year", "City"] : List String) ∧
    "Year" ∈ wSt.num_cols ∧
    wEnv.trainCSV = some wTrain ∧
    alookup wTrain.cols "Year" =
      some [Cell.int 2011, Cell.int 2012, Cell.int 2013] ∧
    colDtype [Cell.int 2011, Cell.int 2012, Cell.int 2013] = .int64 ∧
    build_input wEnv wSt [("Year", "2015"), ("City", "Pune")] =
      .ok [("Year", Cell.int 2015), ("City", Cell.str "Pune")] ∧
    wStM.features = some ["Mileage"] ∧
    (["Mileage"] : List String).Nodup ∧
    "Mileage" ∈ (["Mileage"] : List String) ∧
    "Mileage" ∈ wStM.num_cols ∧
    wEnv.trainCSV = some wTrain ∧
    alookup wTrain.cols "Mileage" =
      some [Cell.float (Rat.divInt 3 2), Cell.nan, Cell.float 2] ∧
    colDtype [Cell.float (Rat.divInt 3 2), Cell.nan, Cell.float 2] ≠
      .int64 ∧
    build_input wEnv wStM [("Mileage", "12.5")] =
      .ok [("Mileage", Cell.float (Rat.divInt 25 2))] ∧
    cexEnv.trainCSV = none ∧
    build_input cexEnv wStM [("Mileage", "3")] =
      .ok [("Mileage", Cell.float 3)] ∧
    cexSt.features = some ["Brand"] ∧
    "Brand" ∉ cexSt.num_cols ∧
    build_input cexEnv cexSt [("Brand", "BMW")] =
      .ok [("Brand", Cell.str "BMW")] ∧
    ((∃ q, pyFloat (alookup [("Year", "2015"), ("City", "Pune")] "Year") =
        .ok q ∧
      alookup [("Year", Cell.int 2015), ("City", Cell.str "Pune")] "Year" =
        some (Cell.int (pyTrunc q))) ∧
     (∃ q, pyFloat (alookup [("Mileage", "12.5")] "Mileage") = .ok q ∧
      alookup [("Mileage", Cell.float (Rat.divInt 25 2))] "Mileage" =
        some (Cell.float q)) ∧
     (∃ q, pyFloat (alookup [("Mileage", "3")] "Mileage") = .ok q ∧
      alookup [("Mileage", Cell.float 3)] "Mileage" =
        some (Cell.float q)) ∧
     alookup [("Brand", Cell.str "BMW")] "Brand" =
       some (Cell.str (pyStrOfOpt
         (alookup [("Brand", "BMW")] "Brand")))) :=
  ⟨rfl, by decide, by decide, by decide, rfl, by decide, by decide,
    by decide, rfl, by decide, by decide, by decide, rfl, by decide,
    by decide, by decide, rfl, by decide, rfl, by decide, by decide,
    predict_coercion_follows_dtype wEnv wEnv cexEnv cexEnv
      wSt wStM wStM cexSt
      [("Year", "2015"), ("City", "Pune")] [("Mileage", "12.5")]
      [("Mileage", "3")] [("Brand", "BMW")]
      ["Year", "City"] ["Mileage"] ["Mileage"] ["Brand"]
      "Year" "Mileage" "Mileage" "Brand"
      [("Year", Cell.int 2015), ("City", Cell.str "Pune")]
      [("Mileage", Cell.float (Rat.divInt 25 2))]
      [("Mileage", Cell.float 3)] [("Brand", Cell.str "BMW")]
      wTrain wTrain
      [Cell.int 2011, Cell.int 2012, Cell.int 2013]
      [Cell.float (Rat.divInt 3 2), Cell.nan, Cell.float 2]
      rfl (by decide) (by decide) (by decide) rfl (by decide) (by decide)
      (by decide)
      rfl (by decide) (by decide) (by decide) rfl (by decide) (by decide)
      (by decide)
      rfl (by decide) (by decide) (by decide) rfl (by decide)
      rfl (by decide) (by decide) (by decide) (by decide)⟩

theorem dropdown_sorted_by_frequency_witness :
    wEnv.trainCSV = some wTrain ∧
    wTrain.header.Nodup ∧
    ("City", [Cell.str "Pune", Cell.str "Delhi", Cell.str "Pune"]) ∈
      wTrain.cols ∧
    "City" ≠ "Price_INR" ∧
    colDtype [Cell.str "Pune", Cell.str "Delhi", Cell.str "Pune"] =
      .object ∧
    wSt.training_uniques = [] ∧
    cexEnv.trainCSV = none ∧
    cexSt.training_uniques = [] ∧
    ((∃ us : List Cell,
      alookup (load_training_unique_values wEnv wSt).training_uniques
        "City" = some (us.map cellStr) ∧
      us.Perm (uniqueList (dropna
        [Cell.str "Pune", Cell.str "Delhi", Cell.str "Pune"])) ∧
      us.Pairwise (fun a b =>
        freqOf [Cell.str "Pune", Cell.str "Delhi", Cell.str "Pune"] b <
          freqOf [Cell.str "Pune", Cell.str "Delhi", Cell.str "Pune"] a ∨
        (freqOf [Cell.str "Pune", Cell.str "Delhi", Cell.str "Pune"] a =
          freqOf [Cell.str "Pune", Cell.str "Delhi", Cell.str "Pune"] b ∧
          cellStr a ≤ cellStr b))) ∧
    (load_training_unique_values cexEnv cexSt).training_uniques = []) :=
  ⟨rfl, by decide, by decide, by decide, by decide, rfl, rfl, rfl,
    dropdown_sorted_by_frequency wEnv cexEnv wSt cexSt wTrain "City"
      [Cell.str "Pune", Cell.str "Delhi", Cell.str "Pune"]
      rfl (by decide) (by decide) (by decide) (by decide) rfl rfl rfl⟩

end MLApp
